import Mathlib

/-!
# AdvancedSceneSwitcher: the rotation core of `SceneSwitcher`

A shallow embedding of the scheduling core of `src/AdvancedSceneSwitcher.c++`:
the group map, the active group name, the function-local `static` cursor of
`switchScene`, the error label written by `displayError`, and the tasks handed
to the host by `obs_task_schedule`.

Conventions of the embedding.

* `std::map<std::string, SceneGroup>` is an association list that is only read
  through `GroupMap.find` and changed through `GroupMap.erase`,
  `GroupMap.index` (the inserting `operator[]`) and `GroupMap.assign`.
* `size_t` is a natural number; the one addition on it is reduced modulo
  `sizeModulus = 2 ^ 64`.
* The lambda passed to `obs_task_schedule` captures a copy of the vector
  `scenes` (a by-copy capture of a reference copies the referent) and does not
  capture `currentIndex`, which has static storage duration: the body reads the
  cursor when it runs.
-/

namespace SceneSwitcher

/-- The `struct SceneGroup`: an ordered sequence of scene names. -/
structure SceneGroup where
  scenes : List String
deriving DecidableEq, Repr

/-- The `std::map<std::string, SceneGroup>` member `sceneGroups`. -/
abbrev GroupMap := List (String × SceneGroup)

/-- The lookup `sceneGroups.find(k)`: `none` stands for `sceneGroups.end()`. -/
def GroupMap.find (m : GroupMap) (k : String) : Option SceneGroup :=
  List.lookup k m

/-- The call `sceneGroups.erase(k)`. -/
def GroupMap.erase (m : GroupMap) (k : String) : GroupMap :=
  m.filter (fun e => e.1 != k)

/-- The access `sceneGroups[k]`: a key that is absent is first inserted with a
value-initialised `SceneGroup`; the map after the access and the group the
returned reference denotes. -/
def GroupMap.index (m : GroupMap) (k : String) : GroupMap × SceneGroup :=
  match m.find k with
  | some g => (m, g)
  | none => (m ++ [(k, SceneGroup.mk [])], SceneGroup.mk [])

/-- The assignment `sceneGroups[k] = v`. -/
def GroupMap.assign (m : GroupMap) (k : String) (v : SceneGroup) : GroupMap :=
  match m.find k with
  | some _ => m.map (fun e => if e.1 == k then (e.1, v) else e)
  | none => m ++ [(k, v)]

/-- Number of values of `size_t`. -/
def sizeModulus : Nat := 2 ^ 64

/-- The members of `SceneSwitcher` that the rotation core reads or writes,
together with the `static size_t currentIndex` of `switchScene` and the host
side of `obs_task_schedule` and `obs_frontend_set_current_scene`. -/
structure State where
  /-- Member `sceneGroups`. -/
  sceneGroups : GroupMap
  /-- Member `currentGroup`; the empty string when no group was selected. -/
  currentGroup : String
  /-- Member `switchInterval`. -/
  switchInterval : Int
  /-- Whether `timer` is active. -/
  timerActive : Bool
  /-- The interval `timer` is set to. -/
  timerInterval : Int
  /-- Text of `errorLabel`. -/
  errorText : String
  /-- Style sheet of `errorLabel`. -/
  errorStyle : String
  /-- Messages written with `blog(LOG_ERROR, ...)`, oldest first. -/
  errorLog : List String
  /-- The `static size_t currentIndex` of `switchScene`. -/
  currentIndex : Nat
  /-- Tasks given to `obs_task_schedule` and not yet run, oldest first; a task
  is the lambda of `switchScene`, determined by its copy of `scenes`. -/
  scheduled : List (List String)
  /-- The scene last passed to `obs_frontend_set_current_scene`. -/
  frontendScene : Option String
deriving DecidableEq, Repr

/-- The method `displayError`. -/
def displayError (s : State) (message : String) : State :=
  { s with
    errorText := message
    errorStyle := "color: red;"
    errorLog := s.errorLog ++ ["AdvancedSceneSwitcher Error: " ++ message] }

/-- The method `addSceneGroup`. -/
def addSceneGroup (s : State) (groupName : String) : State :=
  match s.sceneGroups.find groupName with
  | none => { s with sceneGroups := s.sceneGroups.assign groupName (SceneGroup.mk []) }
  | some _ => s

/-- The method `removeSceneGroup`. -/
def removeSceneGroup (s : State) (groupName : String) : State :=
  { s with sceneGroups := s.sceneGroups.erase groupName }

/-- The method `setSwitchInterval`. -/
def setSwitchInterval (s : State) (interval : Int) : State :=
  { s with switchInterval := interval, timerInterval := interval }

/-- The method `enablePlugin`. -/
def enablePlugin (s : State) : State :=
  { s with timerActive := true, timerInterval := s.switchInterval }

/-- The method `disablePlugin`. -/
def disablePlugin (s : State) : State :=
  { s with timerActive := false }

/-- The method `switchScene`, the slot connected to `timer.timeout`. The two
accesses `sceneGroups[currentGroup]` are kept apart: the first one, in the
guard, is evaluated only when `currentGroup` is not empty. Nothing in the `try`
block throws on the scheduling side, so the `catch` is never entered here. -/
def switchScene (s : State) : State :=
  if s.currentGroup = "" then s
  else
    let a := s.sceneGroups.index s.currentGroup
    if a.2.scenes = [] then { s with sceneGroups := a.1 }
    else
      let b := a.1.index s.currentGroup
      let scenes := b.2.scenes
      let idx := (s.currentIndex + 1) % sizeModulus % scenes.length
      { s with
        sceneGroups := b.1
        currentIndex := idx
        scheduled := s.scheduled ++ [scenes] }

/-- The method `setActiveGroup`. -/
def setActiveGroup (s : State) (groupName : String) : State :=
  match s.sceneGroups.find groupName with
  | some _ => { s with currentGroup := groupName }
  | none => displayError s ("Group not found: " ++ groupName)

/-- How a run of the lambda of `switchScene` ends. -/
inductive TaskOutcome where
  /-- The name resolved and `obs_frontend_set_current_scene` was called. -/
  | sceneSet (name : String)
  /-- A `std::runtime_error` with this `what()` left the lambda. -/
  | thrown (what : String)
  /-- The access `scenes[currentIndex]` was past the end of the captured vector. -/
  | outOfRange
deriving DecidableEq, Repr

/-- Body of the lambda of `switchScene`, for its captured copy `scenes`, the
value `currentIndex` has when the body runs, and the host registry
(`obs_scene_by_name` returns a scene or null). The scene name asked of the
registry comes with the outcome. -/
def lambdaBody (obs_scene_by_name : String → Bool) (scenes : List String)
    (currentIndex : Nat) : Option String × TaskOutcome :=
  match scenes[currentIndex]? with
  | none => (none, TaskOutcome.outOfRange)
  | some n =>
    if obs_scene_by_name n then (some n, TaskOutcome.sceneSet n)
    else (some n, TaskOutcome.thrown ("Scene not found: " ++ n))

/-- Modelled from the spec: the host function `obs_task_schedule` is declared
in no source file; by sections 4.3 and 5 it hands the task to the host's render
context, where it runs later, outside `switchScene` and its `try` block. Here
the host runs the oldest scheduled task: the state after it, the scene name the
task asked the registry for, and how the task ended. An exception that leaves
the task reaches no handler of `SceneSwitcher`, so no member changes. -/
def runTask (obs_scene_by_name : String → Bool) (s : State) :
    Option (State × Option String × TaskOutcome) :=
  match s.scheduled with
  | [] => none
  | scenes :: rest =>
    let r := lambdaBody obs_scene_by_name scenes s.currentIndex
    let s1 := { s with scheduled := rest }
    match r.2 with
    | TaskOutcome.sceneSet n => some ({ s1 with frontendScene := some n }, r.1, r.2)
    | _ => some (s1, r.1, r.2)

/-- The host runs the scheduled tasks, oldest first and at most `fuel` of them:
the state after them and the names they asked of the registry, in order. -/
def runAll (obs_scene_by_name : String → Bool) : Nat → State → State × List (Option String)
  | 0, s => (s, [])
  | fuel + 1, s =>
    match runTask obs_scene_by_name s with
    | none => (s, [])
    | some (s1, n, _) =>
      let r := runAll obs_scene_by_name fuel s1
      (r.1, n :: r.2)

/-- A timer period in which the host runs every scheduled task before the next
tick: the tick, then the tasks. -/
def period (obs_scene_by_name : String → Bool) (s : State) : State × List (Option String) :=
  let s1 := switchScene s
  runAll obs_scene_by_name s1.scheduled.length s1

/-- State left by the constructor: `loadGroupsFromFile` has filled
`sceneGroups` with the groups read from the configuration file, or has shown
the error of a failed read. -/
def initial (loaded : GroupMap) (loadError : Option String) : State :=
  let s : State :=
    { sceneGroups := loaded
      currentGroup := ""
      switchInterval := 30000
      timerActive := false
      timerInterval := 0
      errorText := ""
      errorStyle := ""
      errorLog := []
      currentIndex := 0
      scheduled := []
      frontendScene := none }
  match loadError with
  | none => s
  | some e => displayError s e

/-- The entry points into the core: the public methods, and the timer. -/
inductive Op where
  | addGroup (name : String)
  | removeGroup (name : String)
  | setActiveGroup (name : String)
  | setInterval (ms : Int)
  | start
  | stop
  | tick
deriving DecidableEq, Repr

/-- Effect of one entry point; `timer.timeout` is emitted only while the timer
is active. -/
def step (s : State) : Op → State
  | .addGroup n => addSceneGroup s n
  | .removeGroup n => removeSceneGroup s n
  | .setActiveGroup n => setActiveGroup s n
  | .setInterval ms => setSwitchInterval s ms
  | .start => enablePlugin s
  | .stop => disablePlugin s
  | .tick => if s.timerActive then switchScene s else s

/-- Effect of a sequence of entry points. -/
def run (s : State) (ops : List Op) : State :=
  ops.foldl step s

/-- The cursor is not the largest `size_t` value and every vector size is a
`size_t` value. -/
def SizesFit (s : State) : Prop :=
  s.currentIndex + 1 < sizeModulus ∧ ∀ e ∈ s.sceneGroups, e.2.scenes.length < sizeModulus

instance (s : State) : Decidable (SizesFit s) := by
  unfold SizesFit
  infer_instance

/-- The group map `G -> [A, B, C]` with `G` selected and the cursor at 0. -/
def stateABC : State :=
  setActiveGroup (initial [("G", SceneGroup.mk ["A", "B", "C"])] none) "G"

/-- The registry of a host that has none of the scenes. -/
def noScenes : String → Bool := fun _ => false

/-- A configuration file with a group `L` of three scenes and a group `S` of
two. -/
def groupsLS : GroupMap :=
  [("L", SceneGroup.mk ["A", "B", "C"]), ("S", SceneGroup.mk ["X", "Y"])]

/-- After `L` was selected, the plugin enabled, the timer fired once and the
host ran the task of that tick. -/
def stateAfterOnePeriod : State :=
  (period noScenes (run (initial groupsLS none) [Op.setActiveGroup "L", Op.start])).1

/-- After `L` was selected, the plugin enabled and the timer fired twice. -/
def stateAfterTwoTicks : State :=
  run (initial groupsLS none) [Op.setActiveGroup "L", Op.start, Op.tick, Op.tick]

/-- A configuration file with a group `S` of one scene and a group `L` of
three. -/
def groupsShortLong : GroupMap :=
  [("S", SceneGroup.mk ["A"]), ("L", SceneGroup.mk ["X", "Y", "Z"])]

/-- A tick on `S`, then `L` is selected and the timer fires again, while the
task of the first tick has not run yet. -/
def stateTwoPending : State :=
  run (initial groupsShortLong none)
    [Op.setActiveGroup "S", Op.start, Op.tick, Op.setActiveGroup "L", Op.tick]

/-! ## Lemmas on the group map and on `switchScene` -/

theorem GroupMap.index_of_find {m : GroupMap} {k : String} {g : SceneGroup}
    (h : m.find k = some g) : m.index k = (m, g) := by
  simp [GroupMap.index, h]

theorem GroupMap.find_cons (a : String) (b : SceneGroup) (m : GroupMap) (j : String) :
    GroupMap.find ((a, b) :: m) j = if j = a then some b else GroupMap.find m j := by
  by_cases h : j = a
  · have hb : (j == a) = true := by simpa using h
    simp [GroupMap.find, List.lookup, hb, h]
  · have hb : (j == a) = false := by simpa using h
    simp [GroupMap.find, List.lookup, hb, h]

theorem GroupMap.find_append_absent {m : GroupMap} {k : String} (v : SceneGroup)
    (h : m.find k = none) : GroupMap.find (m ++ [(k, v)]) k = some v := by
  induction m with
  | nil => simp [GroupMap.find_cons]
  | cons e m ih =>
    obtain ⟨a, b⟩ := e
    rw [GroupMap.find_cons] at h
    by_cases hka : k = a
    · simp [hka] at h
    · rw [if_neg hka] at h
      simp only [List.cons_append, GroupMap.find_cons, if_neg hka, ih h]

theorem GroupMap.find_append_other {m : GroupMap} {k j : String} (v : SceneGroup)
    (h : j ≠ k) : GroupMap.find (m ++ [(k, v)]) j = m.find j := by
  induction m with
  | nil => simp [GroupMap.find_cons, h, GroupMap.find]
  | cons e m ih =>
    obtain ⟨a, b⟩ := e
    simp only [List.cons_append, GroupMap.find_cons, ih]

theorem switchScene_of_find {s : State} {g : SceneGroup} (hname : s.currentGroup ≠ "")
    (hfind : s.sceneGroups.find s.currentGroup = some g) (hne : g.scenes ≠ []) :
    switchScene s =
      { s with
        currentIndex := (s.currentIndex + 1) % sizeModulus % g.scenes.length
        scheduled := s.scheduled ++ [g.scenes] } := by
  simp [switchScene, hname, GroupMap.index_of_find hfind, hne]

theorem zero_lt_sizeModulus : 0 < sizeModulus := by decide

theorem one_lt_sizeModulus : 0 + 1 < sizeModulus := by decide

theorem GroupMap.mem_of_find {m : GroupMap} {k : String} {g : SceneGroup}
    (h : m.find k = some g) : (k, g) ∈ m := by
  induction m with
  | nil => simp [GroupMap.find] at h
  | cons e m ih =>
    obtain ⟨a, b⟩ := e
    rw [GroupMap.find_cons] at h
    by_cases hka : k = a
    · rw [if_pos hka] at h
      injection h with hb
      rw [hka, hb]
      exact List.mem_cons_self _ _
    · rw [if_neg hka] at h
      exact List.mem_cons_of_mem _ (ih h)

theorem switchScene_sizesFit {s : State} (h : SizesFit s) : SizesFit (switchScene s) := by
  obtain ⟨hc, hg⟩ := h
  by_cases hname : s.currentGroup = ""
  · have hsw : switchScene s = s := by simp [switchScene, hname]
    rw [hsw]
    exact ⟨hc, hg⟩
  · cases h0 : s.sceneGroups.find s.currentGroup with
    | none =>
      have hsw : switchScene s
          = { s with sceneGroups := s.sceneGroups ++ [(s.currentGroup, SceneGroup.mk [])] } := by
        simp [switchScene, hname, GroupMap.index, h0]
      rw [hsw]
      refine ⟨hc, ?_⟩
      intro e he
      rcases List.mem_append.mp he with he | he
      · exact hg e he
      · rw [List.mem_singleton.mp he]
        exact zero_lt_sizeModulus
    | some g0 =>
      by_cases he : g0.scenes = []
      · have hsw : switchScene s = s := by
          simp [switchScene, hname, GroupMap.index_of_find h0, he]
        rw [hsw]
        exact ⟨hc, hg⟩
      · rw [switchScene_of_find hname h0 he]
        refine ⟨?_, hg⟩
        have h1 := hg _ (GroupMap.mem_of_find h0)
        have h2 := Nat.mod_lt ((s.currentIndex + 1) % sizeModulus) (List.length_pos.mpr he)
        simp only at h1 ⊢
        omega

theorem step_sizesFit {s : State} (h : SizesFit s) (op : Op) : SizesFit (step s op) := by
  cases op with
  | addGroup n =>
    cases h0 : s.sceneGroups.find n with
    | none =>
      have hadd : step s (Op.addGroup n)
          = { s with sceneGroups := s.sceneGroups ++ [(n, SceneGroup.mk [])] } := by
        simp [step, addSceneGroup, GroupMap.assign, h0]
      rw [hadd]
      refine ⟨h.1, ?_⟩
      intro e he
      rcases List.mem_append.mp he with he | he
      · exact h.2 e he
      · rw [List.mem_singleton.mp he]
        exact zero_lt_sizeModulus
    | some g0 =>
      have hadd : step s (Op.addGroup n) = s := by simp [step, addSceneGroup, h0]
      rw [hadd]
      exact h
  | removeGroup n =>
    refine ⟨h.1, ?_⟩
    intro e he
    exact h.2 e (List.mem_of_mem_filter he)
  | setActiveGroup n =>
    cases h0 : s.sceneGroups.find n with
    | none =>
      have hs : step s (Op.setActiveGroup n) = displayError s ("Group not found: " ++ n) := by
        simp [step, setActiveGroup, h0]
      rw [hs]
      exact h
    | some g0 =>
      have hs : step s (Op.setActiveGroup n) = { s with currentGroup := n } := by
        simp [step, setActiveGroup, h0]
      rw [hs]
      exact h
  | setInterval ms => exact h
  | start => exact h
  | stop => exact h
  | tick =>
    by_cases ht : s.timerActive = true
    · have hs : step s Op.tick = switchScene s := by simp [step, ht]
      rw [hs]
      exact switchScene_sizesFit h
    · have hs : step s Op.tick = s := by simp [step, ht]
      rw [hs]
      exact h

/-- The cursor never reaches the largest `size_t` value: from an instance whose
loaded groups have sizes that fit `size_t`, every sequence of entry points
leads to a state where `currentIndex + 1` does not wrap. -/
theorem run_sizesFit (loaded : GroupMap) (loadError : Option String)
    (hl : ∀ e ∈ loaded, e.2.scenes.length < sizeModulus) (ops : List Op) :
    SizesFit (run (initial loaded loadError) ops) := by
  have h0 : SizesFit (initial loaded loadError) := by
    cases loadError with
    | none => exact ⟨one_lt_sizeModulus, hl⟩
    | some e => exact ⟨one_lt_sizeModulus, hl⟩
  generalize initial loaded loadError = s at h0
  induction ops generalizing s with
  | nil => exact h0
  | cons op ops ih => exact ih (step s op) (step_sizesFit h0 op)

theorem mod_step (c n : Nat) (hn : 1 ≤ n) (hsz : n < sizeModulus)
    (hc : c + 1 < sizeModulus) :
    (c + 1) % sizeModulus % n = (c + 1) % n
      ∧ (c + 1) % sizeModulus % n + 1 < sizeModulus := by
  have h1 : (c + 1) % sizeModulus = c + 1 := Nat.mod_eq_of_lt hc
  have h2 : (c + 1) % n < n := Nat.mod_lt _ hn
  rw [h1]
  exact ⟨rfl, by omega⟩

theorem runTask_of_get (reg : String → Bool) {s : State} {scenes : List String}
    {rest : List (List String)} {n : String} (hq : s.scheduled = scenes :: rest)
    (hget : scenes[s.currentIndex]? = some n) :
    runTask reg s =
      some (if reg n then { s with scheduled := rest, frontendScene := some n }
            else { s with scheduled := rest },
          some n,
          if reg n then TaskOutcome.sceneSet n
          else TaskOutcome.thrown ("Scene not found: " ++ n)) := by
  cases hr : reg n <;> simp [runTask, lambdaBody, hq, hget, hr]

theorem period_of_find (reg : String → Bool) {s : State} {g : SceneGroup}
    (hname : s.currentGroup ≠ "")
    (hfind : s.sceneGroups.find s.currentGroup = some g)
    (hn : 1 ≤ g.scenes.length) (hsz : g.scenes.length < sizeModulus)
    (hc : s.currentIndex + 1 < sizeModulus) (hq : s.scheduled = []) :
    (period reg s).2 = [g.scenes[(s.currentIndex + 1) % g.scenes.length]?]
      ∧ (period reg s).1.sceneGroups = s.sceneGroups
      ∧ (period reg s).1.currentGroup = s.currentGroup
      ∧ (period reg s).1.currentIndex = (s.currentIndex + 1) % g.scenes.length
      ∧ (period reg s).1.scheduled = [] := by
  have hne : g.scenes ≠ [] := by
    intro h
    rw [h] at hn
    simp at hn
  have hm := (mod_step s.currentIndex g.scenes.length hn hsz hc).1
  have hlt : (s.currentIndex + 1) % g.scenes.length < g.scenes.length := Nat.mod_lt _ hn
  obtain ⟨n, hget⟩ : ∃ n, g.scenes[(s.currentIndex + 1) % g.scenes.length]? = some n :=
    ⟨g.scenes.get ⟨_, hlt⟩, by simp [List.getElem?_eq_getElem hlt]⟩
  have hsw := switchScene_of_find hname hfind hne
  rw [hm, hq, List.nil_append] at hsw
  have hsched : (switchScene s).scheduled = g.scenes :: [] := by rw [hsw]
  have hget2 : g.scenes[(switchScene s).currentIndex]? = some n := by rw [hsw]; exact hget
  have hrun := runTask_of_get reg hsched hget2
  have hlen : (switchScene s).scheduled.length = 1 := by rw [hsw]; rfl
  rw [hget]
  cases hr : reg n
  · simp only [period, hlen, runAll, hrun, hr]
    simp [hsw, runTask]
  · simp only [period, hlen, runAll, hrun, hr]
    simp [hsw, runTask]

/-- C2, as the code has it: for a name that is in the store, `setActiveGroup`
makes it the active group and changes nothing else, so the cursor keeps the
value `c` it had; the first tick after it on a group of `n >= 1` scenes sets the
cursor to `(c + 1) mod n` and asks the registry for `scenes[(c + 1) mod n]`. -/
theorem setActiveGroup_keeps_cursor (reg : String → Bool) (s : State) (name : String)
    (g : SceneGroup) (hfind : s.sceneGroups.find name = some g) :
    setActiveGroup s name = { s with currentGroup := name }
      ∧ (setActiveGroup s name).currentIndex = s.currentIndex
      ∧ (name ≠ "" → 1 ≤ g.scenes.length → g.scenes.length < sizeModulus →
          s.currentIndex + 1 < sizeModulus →
          (switchScene (setActiveGroup s name)).currentIndex
              = (s.currentIndex + 1) % g.scenes.length
            ∧ (switchScene (setActiveGroup s name)).scheduled = s.scheduled ++ [g.scenes]
            ∧ (s.scheduled = [] →
                (period reg (setActiveGroup s name)).2
                  = [g.scenes[(s.currentIndex + 1) % g.scenes.length]?])) := by
  have h1 : setActiveGroup s name = { s with currentGroup := name } := by
    simp [setActiveGroup, hfind]
  refine ⟨h1, by rw [h1], ?_⟩
  intro hname hn hsz hc
  have hne : g.scenes ≠ [] := by
    intro h
    rw [h] at hn
    simp at hn
  have hname2 : (setActiveGroup s name).currentGroup ≠ "" := by rw [h1]; exact hname
  have hfind2 : (setActiveGroup s name).sceneGroups.find (setActiveGroup s name).currentGroup
      = some g := by rw [h1]; exact hfind
  have hc2 : (setActiveGroup s name).currentIndex + 1 < sizeModulus := by rw [h1]; exact hc
  have hsw := switchScene_of_find hname2 hfind2 hne
  refine ⟨?_, ?_, ?_⟩
  · rw [hsw]
    simp only [h1]
    exact (mod_step _ _ hn hsz hc).1
  · rw [hsw]
    simp only [h1]
  · intro hq
    have hp := (period_of_find reg hname2 hfind2 hn hsz hc2 (by rw [h1]; exact hq)).1
    rw [hp]
    simp only [h1]

/-- Witness of C2 as amended: selecting `S` after one tick on `L` leaves the
cursor at 1, and the next tick asks for `X`, the scene at `(1 + 1) mod 2`. -/
theorem setActiveGroup_keeps_cursor_witness :
    (setActiveGroup stateAfterOnePeriod "S").currentGroup = "S"
      ∧ (setActiveGroup stateAfterOnePeriod "S").currentIndex = 1
      ∧ (switchScene (setActiveGroup stateAfterOnePeriod "S")).currentIndex = 0 := by
  have h := setActiveGroup_keeps_cursor noScenes stateAfterOnePeriod "S"
    (SceneGroup.mk ["X", "Y"]) (by decide)
  refine ⟨by rw [h.1], ?_, ?_⟩
  · rw [h.2.1]
    decide
  · rw [(h.2.2 (by decide) (by decide) (by decide) (by decide)).1]
    decide

/-- Counterexample to C2: `S` is in the store, yet after `setActiveGroup` the
cursor is still 1, the value reached in `L`, and the first tick on `S` asks for
`X = scenes[0]`, where a cursor reset to 0 would give `Y = scenes[1 mod 2]`. -/
theorem setActiveGroup_resets_cursor_counterexample :
    stateAfterOnePeriod.sceneGroups.find "S" = some (SceneGroup.mk ["X", "Y"])
      ∧ (setActiveGroup stateAfterOnePeriod "S").currentGroup = "S"
      ∧ (setActiveGroup stateAfterOnePeriod "S").currentIndex = 1
      ∧ (setActiveGroup stateAfterOnePeriod "S").currentIndex ≠ 0
      ∧ (period noScenes (setActiveGroup stateAfterOnePeriod "S")).2 = [some "X"]
      ∧ (period noScenes (setActiveGroup stateAfterOnePeriod "S")).2 ≠ [some "Y"] := by
  decide

/-- C3: for a name that is not in the store, `setActiveGroup` is exactly
`displayError` of `Group not found: ` followed by the name: the active group
name, the store and the cursor stay, the error label shows the message and one
record is logged; and `setActiveGroup` logs an error exactly when the name is
not in the store. -/
theorem setActiveGroup_unknown (s : State) (name : String) :
    (s.sceneGroups.find name = none →
        setActiveGroup s name = displayError s ("Group not found: " ++ name)
          ∧ (setActiveGroup s name).currentGroup = s.currentGroup
          ∧ (setActiveGroup s name).sceneGroups = s.sceneGroups
          ∧ (setActiveGroup s name).currentIndex = s.currentIndex
          ∧ (setActiveGroup s name).errorText = "Group not found: " ++ name
          ∧ (setActiveGroup s name).errorLog
              = s.errorLog ++ ["AdvancedSceneSwitcher Error: " ++ ("Group not found: " ++ name)])
      ∧ ((setActiveGroup s name).errorLog ≠ s.errorLog ↔ s.sceneGroups.find name = none) := by
  constructor
  · intro h
    simp [setActiveGroup, h, displayError]
  · cases h : s.sceneGroups.find name with
    | none => simp [setActiveGroup, h, displayError]
    | some g => simp [setActiveGroup, h]

/-- Witness of C3: `missing` is not a group of the store of `stateABC`. -/
theorem setActiveGroup_unknown_witness :
    (setActiveGroup stateABC "missing").currentGroup = "G"
      ∧ (setActiveGroup stateABC "missing").errorText = "Group not found: missing"
      ∧ (setActiveGroup stateABC "missing").errorLog ≠ stateABC.errorLog := by
  have h := setActiveGroup_unknown stateABC "missing"
  have h1 := h.1 (by decide)
  refine ⟨?_, ?_, h.2.2 (by decide)⟩
  · rw [h1.2.1]
    decide
  · rw [h1.2.2.2.2.1]
    decide

/-- C5: when the active group name is empty, or names a group of the store that
has no scenes, `switchScene` returns the state it was given: no task is
scheduled, no error is shown or logged, and the cursor, the active group name
and the store are as before. -/
theorem switchScene_idle (s : State)
    (h : s.currentGroup = ""
      ∨ s.sceneGroups.find s.currentGroup = some (SceneGroup.mk [])) :
    switchScene s = s
      ∧ (switchScene s).scheduled = s.scheduled
      ∧ (switchScene s).errorLog = s.errorLog
      ∧ (switchScene s).errorText = s.errorText
      ∧ (switchScene s).currentIndex = s.currentIndex
      ∧ (switchScene s).currentGroup = s.currentGroup
      ∧ (switchScene s).sceneGroups = s.sceneGroups := by
  have h1 : switchScene s = s := by
    by_cases hname : s.currentGroup = ""
    · simp [switchScene, hname]
    · rcases h with h | h
      · exact absurd h hname
      · simp [switchScene, hname, GroupMap.index_of_find h]
  rw [h1]
  simp

/-- Witness of C5: a fresh instance with no group selected, and an instance
whose selected group `E` has no scenes. -/
theorem switchScene_idle_witness :
    switchScene (initial groupsLS none) = initial groupsLS none
      ∧ switchScene (setActiveGroup (addSceneGroup (initial groupsLS none) "E") "E")
          = setActiveGroup (addSceneGroup (initial groupsLS none) "E") "E" :=
  ⟨(switchScene_idle (initial groupsLS none) (Or.inl (by decide))).1,
    (switchScene_idle (setActiveGroup (addSceneGroup (initial groupsLS none) "E") "E")
      (Or.inr (by decide))).1⟩

/-- C6 at a failing input: the active group `L` is removed after two ticks and
the timer fires again. No task is scheduled and no error is logged, but the
store after the tick differs from the store before it: the access
`sceneGroups[currentGroup]` has put `L` back, with no scenes. -/
theorem switchScene_after_remove_reinserts :
    (removeSceneGroup stateAfterTwoTicks "L").sceneGroups
        = [("S", SceneGroup.mk ["X", "Y"])]
      ∧ (step (removeSceneGroup stateAfterTwoTicks "L") Op.tick).sceneGroups
        = [("S", SceneGroup.mk ["X", "Y"]), ("L", SceneGroup.mk [])]
      ∧ (step (removeSceneGroup stateAfterTwoTicks "L") Op.tick).sceneGroups.find "L"
        = some (SceneGroup.mk [])
      ∧ (step (removeSceneGroup stateAfterTwoTicks "L") Op.tick).scheduled
        = (removeSceneGroup stateAfterTwoTicks "L").scheduled
      ∧ (step (removeSceneGroup stateAfterTwoTicks "L") Op.tick).errorLog = [] := by
  decide

/-- C8 at a failing input: the host has none of the scenes; the tick on
`[A, B, C]` schedules its task and returns with the error label untouched, and
when the host runs the task, a `runtime_error` with the text
`Scene not found: B` leaves it: no scene is set, and `displayError` is not
called, the error label and the log are as before the tick. -/
theorem runTask_unresolved_throws :
    (switchScene stateABC).errorText = "" ∧ (switchScene stateABC).errorLog = []
      ∧ (runTask noScenes (switchScene stateABC)).map (fun r => r.2)
          = some (some "B", TaskOutcome.thrown "Scene not found: B")
      ∧ (runTask noScenes (switchScene stateABC)).map (fun r => r.1.errorText) = some ""
      ∧ (runTask noScenes (switchScene stateABC)).map (fun r => r.1.errorLog) = some []
      ∧ (runTask noScenes (switchScene stateABC)).map (fun r => r.1.frontendScene)
          = some none := by
  decide

/-- C9: `addSceneGroup` touches nothing but the store, so it shows and logs no
error; for a name that is not in the store, the store gains that name with no
scenes and every other name finds what it found before; for a name that is in
the store, the state is returned as it was; and adding a name twice is adding
it once. -/
theorem addSceneGroup_idempotent (s : State) (name : String) :
    addSceneGroup s name = { s with sceneGroups := (addSceneGroup s name).sceneGroups }
      ∧ (addSceneGroup s name).errorText = s.errorText
      ∧ (addSceneGroup s name).errorLog = s.errorLog
      ∧ (s.sceneGroups.find name = none →
          (addSceneGroup s name).sceneGroups = s.sceneGroups ++ [(name, SceneGroup.mk [])]
            ∧ (addSceneGroup s name).sceneGroups.find name = some (SceneGroup.mk [])
            ∧ ∀ other : String, other ≠ name →
                (addSceneGroup s name).sceneGroups.find other = s.sceneGroups.find other)
      ∧ (∀ g : SceneGroup, s.sceneGroups.find name = some g → addSceneGroup s name = s)
      ∧ addSceneGroup (addSceneGroup s name) name = addSceneGroup s name := by
  cases h : s.sceneGroups.find name with
  | none =>
    have hadd : addSceneGroup s name
        = { s with sceneGroups := s.sceneGroups ++ [(name, SceneGroup.mk [])] } := by
      simp [addSceneGroup, GroupMap.assign, h]
    have hfound := GroupMap.find_append_absent (SceneGroup.mk []) h
    refine ⟨by rw [hadd], by rw [hadd], by rw [hadd], ?_, ?_, ?_⟩
    · intro _
      refine ⟨by rw [hadd], by rw [hadd]; exact hfound, ?_⟩
      intro other ho
      rw [hadd]
      exact GroupMap.find_append_other _ ho
    · intro g hg
      exact absurd hg (by simp)
    · rw [hadd]
      simp [addSceneGroup, hfound]
  | some g0 =>
    have hadd : addSceneGroup s name = s := by simp [addSceneGroup, h]
    refine ⟨by rw [hadd], by rw [hadd], by rw [hadd], ?_, ?_, ?_⟩
    · intro hn
      exact absurd hn (by simp)
    · intro _ _
      exact hadd
    · rw [hadd, hadd]

/-- Witness of C9: adding the new name `E`, and adding the existing name `L`. -/
theorem addSceneGroup_idempotent_witness :
    (addSceneGroup (initial groupsLS none) "E").sceneGroups
        = groupsLS ++ [("E", SceneGroup.mk [])]
      ∧ addSceneGroup (initial groupsLS none) "L" = initial groupsLS none :=
  ⟨((addSceneGroup_idempotent (initial groupsLS none) "E").2.2.2.1 (by decide)).1,
    (addSceneGroup_idempotent (initial groupsLS none) "L").2.2.2.2.1
      (SceneGroup.mk ["A", "B", "C"]) (by decide)⟩

/-- C10 at two failing inputs. Two ticks on `[A, B, C]` from cursor 0 before
the host runs a task: the first tick had set the cursor to 1, the scene `B`,
yet its task, run after the second tick, asks for `C`. And a tick on `[A]`
followed by a tick on `[X, Y, Z]`: the task of the first tick, run afterwards,
reads index 1 of its one-element copy. -/
theorem runTask_reads_later_cursor :
    (switchScene stateABC).currentIndex = 1
      ∧ (switchScene stateABC).scheduled = [["A", "B", "C"]]
      ∧ (runTask noScenes (switchScene stateABC)).map (fun r => r.2.1) = some (some "B")
      ∧ (runTask noScenes (switchScene (switchScene stateABC))).map (fun r => r.2.1)
          = some (some "C")
      ∧ stateTwoPending.scheduled = [["A"], ["X", "Y", "Z"]]
      ∧ stateTwoPending.currentIndex = 1
      ∧ (runTask noScenes stateTwoPending).map (fun r => r.2)
          = some (none, TaskOutcome.outOfRange) := by
  decide

end SceneSwitcher

